import Mathlib

/-!
Verification of the in-memory banking ledger of `apis/functions.py`
(clients, accounts, transactions) and its business operations.

The Python store is three collections plus two counters:
  clientes : Dict[int, Cliente], cuentas : Dict[str, Cuenta],
  transacciones : List[Transaccion], _seq_tx, _seq_cta.
Insertion-ordered dicts are embedded as lists keyed by the id field
(`setClienteDict`/`setCuentaDict` give Python dict-assignment semantics:
replace in place when the key is present, append otherwise).
Monetary amounts (Python floats) are embedded as rationals; wall-clock
timestamps are threaded as an environment-supplied natural number.
Each operation is a function `Store → Store × Except Err α`: a Python
`raise` returns the store as mutated up to the raise point (in this code,
always the untouched store) together with the error.

The money-movement and transaction-CRUD functions (`depositar`, `retirar`,
`transferir`, `listar/obtener/actualizar/eliminar_transaccion`) are called
from `crud.py` but their bodies are absent from the repository snapshot;
they are modelled from the spec and marked as such below.
-/

/-- Account types, from `TipoCuenta` in functions.py. -/
inductive TipoCuenta where
  | AHORROS
  | CORRIENTE
  | CREDITO
deriving DecidableEq, Repr

instance : BEq TipoCuenta := ⟨fun a b => decide (a = b)⟩

instance : LawfulBEq TipoCuenta where
  eq_of_beq h := by simpa [BEq.beq] using h
  rfl := by simp [BEq.beq]

/-- Transaction types, from `TransaccionTipo` in functions.py. -/
inductive TransaccionTipo where
  | DEPOSITO
  | RETIRO
  | TRANSFERENCIA
deriving DecidableEq, Repr

/-- A client record, from `Cliente` in functions.py. -/
structure Cliente where
  id : Nat
  nombre : String
  email : String
deriving DecidableEq, Repr

/-- An account record, from `Cuenta` in functions.py (float balance as ℚ). -/
structure Cuenta where
  numero : String
  cliente_id : Nat
  tipo : TipoCuenta
  saldo : ℚ
deriving DecidableEq, Repr

/-- A transaction record, from `Transaccion` in functions.py.
The wall-clock `timestamp` is embedded as a natural number supplied by the
environment at recording time. -/
structure Transaccion where
  id : Nat
  tipo : TransaccionTipo
  cuenta_origen : Option String
  cuenta_destino : Option String
  monto : ℚ
  timestamp : Nat
  nota : Option String
deriving DecidableEq, Repr

/-- Failure kinds of the core operations (the exceptions raised in
functions.py, and those the spec gives to the operations absent from the
snapshot), under the spec's error taxonomy names. -/
inductive Err where
  | duplicateEmail
  | notFound
  | hasActiveAccounts
  | clientNotFound
  | accountNotFound
  | nonZeroBalance
  | insufficientFunds
  | sameAccount
deriving DecidableEq, Repr

/-- The in-memory store: the module-level collections and counters of
functions.py. -/
structure Store where
  clientes : List Cliente
  cuentas : List Cuenta
  transacciones : List Transaccion
  seq_tx : Nat
  seq_cta : Nat
deriving DecidableEq, Repr

/-- The initial store: empty collections, both counters 0. -/
def S0 : Store := ⟨[], [], [], 0, 0⟩

/-- Python dict assignment `clientes[k] = c` for the id-keyed client dict:
replace in place when the key is present, append otherwise. -/
def setClienteDict (cs : List Cliente) (c : Cliente) : List Cliente :=
  if cs.any (fun x => x.id == c.id) then
    cs.map (fun x => if x.id == c.id then c else x)
  else
    cs ++ [c]

/-- Python dict assignment `cuentas[k] = cta` for the numero-keyed dict. -/
def setCuentaDict (cs : List Cuenta) (c : Cuenta) : List Cuenta :=
  if cs.any (fun x => x.numero == c.numero) then
    cs.map (fun x => if x.numero == c.numero then c else x)
  else
    cs ++ [c]

/-- `listar_clientes()`. -/
def listar_clientes (s : Store) : List Cliente :=
  s.clientes

/-- `obtener_cliente(cliente_id)`: `clientes.get(cliente_id)`. -/
def obtener_cliente (s : Store) (cliente_id : Nat) : Option Cliente :=
  s.clientes.find? (fun c => c.id == cliente_id)

/-- Maximum of the client ids, 0 when empty: `max(clientes.keys())` on a
nonempty dict (ids are positive, so the 0 seed is neutral). -/
def maxClienteId (cs : List Cliente) : Nat :=
  (cs.map Cliente.id).foldl Nat.max 0

/-- `crear_cliente(payload)`: refuse a duplicate email, else assign
`1 if not clientes else max(clientes.keys()) + 1` and store the client. -/
def crear_cliente (s : Store) (nombre email : String) :
    Store × Except Err Cliente :=
  if s.clientes.any (fun c => c.email == email) then
    (s, Except.error Err.duplicateEmail)
  else
    let new_id := if s.clientes.isEmpty then 1 else maxClienteId s.clientes + 1
    let cliente : Cliente := ⟨new_id, nombre, email⟩
    ({ s with clientes := setClienteDict s.clientes cliente }, Except.ok cliente)

/-- `actualizar_cliente(cliente_id, payload)`: refuse an absent id, refuse an
email held by a different client, else fully replace the record. -/
def actualizar_cliente (s : Store) (cliente_id : Nat) (nombre email : String) :
    Store × Except Err Cliente :=
  if s.clientes.any (fun c => c.id == cliente_id) then
    if s.clientes.any (fun c => c.email == email && c.id != cliente_id) then
      (s, Except.error Err.duplicateEmail)
    else
      let cliente : Cliente := ⟨cliente_id, nombre, email⟩
      ({ s with clientes := setClienteDict s.clientes cliente }, Except.ok cliente)
  else
    (s, Except.error Err.notFound)

/-- `eliminar_cliente(cliente_id)`: refuse an absent id, refuse a client that
still owns accounts, else delete it (no cascade onto accounts). -/
def eliminar_cliente (s : Store) (cliente_id : Nat) :
    Store × Except Err Unit :=
  if s.clientes.any (fun c => c.id == cliente_id) then
    if s.cuentas.any (fun cta => cta.cliente_id == cliente_id) then
      (s, Except.error Err.hasActiveAccounts)
    else
      ({ s with clientes := s.clientes.filter (fun c => c.id != cliente_id) },
       Except.ok ())
  else
    (s, Except.error Err.notFound)

/-- `_next_cta_num`'s formatting `f"ACC{n:04d}"` without the prefix: the
decimal digits of `n` left-padded with zeros to a minimum width of 4. -/
def fmt04 (n : Nat) : String :=
  let d := toString n
  String.mk (List.replicate (4 - d.length) '0') ++ d

/-- `listar_cuentas(cliente_id?, tipo?)`: optional AND-combined filters. -/
def listar_cuentas (s : Store) (cliente_id : Option Nat) (tipo : Option TipoCuenta) :
    List Cuenta :=
  let r0 := s.cuentas
  let r1 := match cliente_id with
    | some i => r0.filter (fun c => c.cliente_id == i)
    | none => r0
  match tipo with
  | some t => r1.filter (fun c => c.tipo == t)
  | none => r1

/-- `obtener_cuenta(numero)`: `cuentas.get(numero)`. -/
def obtener_cuenta (s : Store) (numero : String) : Option Cuenta :=
  s.cuentas.find? (fun c => c.numero == numero)

/-- `crear_cuenta(payload)`: refuse an absent client, else take the next
counter value (`_next_cta_num`), store the account with saldo 0.0. -/
def crear_cuenta (s : Store) (cliente_id : Nat) (tipo : TipoCuenta) :
    Store × Except Err Cuenta :=
  if s.clientes.any (fun c => c.id == cliente_id) then
    let seq := s.seq_cta + 1
    let numero := "ACC" ++ fmt04 seq
    let cuenta : Cuenta := ⟨numero, cliente_id, tipo, 0⟩
    ({ s with cuentas := setCuentaDict s.cuentas cuenta, seq_cta := seq },
     Except.ok cuenta)
  else
    (s, Except.error Err.clientNotFound)

/-- `actualizar_cuenta_tipo(numero, nuevo_tipo)`: refuse an absent account,
else replace its tipo in place (saldo and cliente_id unchanged). -/
def actualizar_cuenta_tipo (s : Store) (numero : String) (nuevo_tipo : TipoCuenta) :
    Store × Except Err Cuenta :=
  match s.cuentas.find? (fun c => c.numero == numero) with
  | none => (s, Except.error Err.notFound)
  | some cta =>
      let cta2 := { cta with tipo := nuevo_tipo }
      ({ s with cuentas := setCuentaDict s.cuentas cta2 }, Except.ok cta2)

/-- `eliminar_cuenta(numero)`: refuse an absent account, refuse a nonzero
saldo, else delete it. -/
def eliminar_cuenta (s : Store) (numero : String) :
    Store × Except Err Unit :=
  match s.cuentas.find? (fun c => c.numero == numero) with
  | none => (s, Except.error Err.notFound)
  | some cta =>
      if cta.saldo ≠ 0 then
        (s, Except.error Err.nonZeroBalance)
      else
        ({ s with cuentas := s.cuentas.filter (fun c => c.numero != numero) },
         Except.ok ())

/-- `_registrar_tx(tipo, monto, cta_origen, cta_destino)` with `_next_tx_id`
folded in: bump `_seq_tx`, build the transaction with that id and the
environment's clock reading, append it to the log. -/
def registrar_tx (s : Store) (tipo : TransaccionTipo) (monto : ℚ)
    (cta_origen cta_destino : Option String) (now : Nat) :
    Store × Transaccion :=
  let tx : Transaccion :=
    ⟨s.seq_tx + 1, tipo, cta_origen, cta_destino, monto, now, none⟩
  ({ s with transacciones := s.transacciones ++ [tx], seq_tx := s.seq_tx + 1 }, tx)

/-- Modelled from the spec: `depositar(cuenta, monto)` is called from crud.py
but its body is absent from functions.py in this snapshot. Spec §4.4: fails
with AccountNotFound if the account does not exist; otherwise increases the
balance by monto and appends one DEPOSITO transaction with destination the
account and null source. Positivity of monto is validated at the transport. -/
def depositar (s : Store) (cuenta : String) (monto : ℚ) (now : Nat) :
    Store × Except Err Transaccion :=
  match s.cuentas.find? (fun c => c.numero == cuenta) with
  | none => (s, Except.error Err.accountNotFound)
  | some cta =>
      let s1 := { s with
        cuentas := setCuentaDict s.cuentas { cta with saldo := cta.saldo + monto } }
      let r := registrar_tx s1 TransaccionTipo.DEPOSITO monto none (some cuenta) now
      (r.1, Except.ok r.2)

/-- Modelled from the spec: `retirar(cuenta, monto)` is called from crud.py but
its body is absent from functions.py in this snapshot. Spec §4.4: fails with
AccountNotFound if absent; fails with InsufficientFunds if monto > saldo;
otherwise decreases the balance by monto and appends one RETIRO transaction
with source the account and null destination. -/
def retirar (s : Store) (cuenta : String) (monto : ℚ) (now : Nat) :
    Store × Except Err Transaccion :=
  match s.cuentas.find? (fun c => c.numero == cuenta) with
  | none => (s, Except.error Err.accountNotFound)
  | some cta =>
      if monto > cta.saldo then
        (s, Except.error Err.insufficientFunds)
      else
        let s1 := { s with
          cuentas := setCuentaDict s.cuentas { cta with saldo := cta.saldo - monto } }
        let r := registrar_tx s1 TransaccionTipo.RETIRO monto (some cuenta) none now
        (r.1, Except.ok r.2)

/-- Modelled from the spec: `transferir(origen, destino, monto)` is called from
crud.py but its body is absent from functions.py in this snapshot. Spec §4.4,
in its order: fails with AccountNotFound if either end is absent; fails with
SameAccount if origen = destino; fails with InsufficientFunds if
monto > saldo(origen); otherwise moves the amount and appends one
TRANSFERENCIA transaction with both ends set. -/
def transferir (s : Store) (origen destino : String) (monto : ℚ) (now : Nat) :
    Store × Except Err Transaccion :=
  match s.cuentas.find? (fun c => c.numero == origen),
        s.cuentas.find? (fun c => c.numero == destino) with
  | some co, some cd =>
      if origen == destino then
        (s, Except.error Err.sameAccount)
      else if monto > co.saldo then
        (s, Except.error Err.insufficientFunds)
      else
        let s1 := { s with
          cuentas := setCuentaDict s.cuentas { co with saldo := co.saldo - monto } }
        let s2 := { s1 with
          cuentas := setCuentaDict s1.cuentas { cd with saldo := cd.saldo + monto } }
        let r := registrar_tx s2 TransaccionTipo.TRANSFERENCIA monto
          (some origen) (some destino) now
        (r.1, Except.ok r.2)
  | _, _ => (s, Except.error Err.accountNotFound)

/-- Modelled from the spec: `listar_transacciones(cuenta?, desde?, hasta?)` is
called from crud.py but absent from functions.py in this snapshot. Filters: if
cuenta is given it must match source or destination; the date bounds are an
inclusive range on the transaction's date (timestamps embedded as Nat). -/
def listar_transacciones (s : Store) (cuenta : Option String)
    (desde hasta : Option Nat) : List Transaccion :=
  let r0 := s.transacciones
  let r1 := match cuenta with
    | some a => r0.filter (fun t => t.cuenta_origen == some a || t.cuenta_destino == some a)
    | none => r0
  let r2 := match desde with
    | some d => r1.filter (fun t => decide (d ≤ t.timestamp))
    | none => r1
  match hasta with
  | some h => r2.filter (fun t => decide (t.timestamp ≤ h))
  | none => r2

/-- Modelled from the spec: `obtener_transaccion(tx_id)`, absent from
functions.py in this snapshot: the record or an absence signal. -/
def obtener_transaccion (s : Store) (tx_id : Nat) : Option Transaccion :=
  s.transacciones.find? (fun t => t.id == tx_id)

/-- Modelled from the spec: `actualizar_transaccion(tx_id, nota)`, absent from
functions.py in this snapshot: fails with NotFound if absent, else replaces
only the nota field (length validation happens at the transport). -/
def actualizar_transaccion (s : Store) (tx_id : Nat) (nota : String) :
    Store × Except Err Transaccion :=
  match s.transacciones.find? (fun t => t.id == tx_id) with
  | none => (s, Except.error Err.notFound)
  | some tx =>
      let tx2 := { tx with nota := some nota }
      ({ s with transacciones :=
          s.transacciones.map (fun t => if t.id == tx_id then tx2 else t) },
       Except.ok tx2)

/-- Modelled from the spec: `eliminar_transaccion(tx_id)`, absent from
functions.py in this snapshot: fails with NotFound if absent, else removes the
record permanently (balances untouched). -/
def eliminar_transaccion (s : Store) (tx_id : Nat) :
    Store × Except Err Unit :=
  match s.transacciones.find? (fun t => t.id == tx_id) with
  | none => (s, Except.error Err.notFound)
  | some _ =>
      ({ s with transacciones := s.transacciones.filter (fun t => t.id != tx_id) },
       Except.ok ())

/-- The operations of the core, with their arguments (money-movement ops also
carry the environment's clock reading used to timestamp the transaction). -/
inductive Op where
  | listarClientes
  | obtenerCliente (cliente_id : Nat)
  | crearCliente (nombre email : String)
  | actualizarCliente (cliente_id : Nat) (nombre email : String)
  | eliminarCliente (cliente_id : Nat)
  | listarCuentas (cliente_id : Option Nat) (tipo : Option TipoCuenta)
  | obtenerCuenta (numero : String)
  | crearCuenta (cliente_id : Nat) (tipo : TipoCuenta)
  | actualizarCuentaTipo (numero : String) (nuevo_tipo : TipoCuenta)
  | eliminarCuenta (numero : String)
  | listarTransacciones (cuenta : Option String) (desde hasta : Option Nat)
  | obtenerTransaccion (tx_id : Nat)
  | actualizarTransaccion (tx_id : Nat) (nota : String)
  | eliminarTransaccion (tx_id : Nat)
  | depositar (cuenta : String) (monto : ℚ) (now : Nat)
  | retirar (cuenta : String) (monto : ℚ) (now : Nat)
  | transferir (origen destino : String) (monto : ℚ) (now : Nat)

/-- The value an operation returns (when it does not fail). -/
inductive Output where
  | listaClientes (cs : List Cliente)
  | clienteOpt (c : Option Cliente)
  | unCliente (c : Cliente)
  | listaCuentas (cs : List Cuenta)
  | cuentaOpt (c : Option Cuenta)
  | unaCuenta (c : Cuenta)
  | listaTx (ts : List Transaccion)
  | txOpt (t : Option Transaccion)
  | unaTx (t : Transaccion)
  | vacio

/-- Run one operation on the store, returning the possibly-mutated store and
the outcome. -/
def run (op : Op) (s : Store) : Store × Except Err Output :=
  match op with
  | Op.listarClientes => (s, Except.ok (Output.listaClientes (listar_clientes s)))
  | Op.obtenerCliente i => (s, Except.ok (Output.clienteOpt (obtener_cliente s i)))
  | Op.crearCliente n e =>
      let r := crear_cliente s n e
      (r.1, r.2.map Output.unCliente)
  | Op.actualizarCliente i n e =>
      let r := actualizar_cliente s i n e
      (r.1, r.2.map Output.unCliente)
  | Op.eliminarCliente i =>
      let r := eliminar_cliente s i
      (r.1, r.2.map (fun _ => Output.vacio))
  | Op.listarCuentas i t => (s, Except.ok (Output.listaCuentas (listar_cuentas s i t)))
  | Op.obtenerCuenta num => (s, Except.ok (Output.cuentaOpt (obtener_cuenta s num)))
  | Op.crearCuenta i t =>
      let r := crear_cuenta s i t
      (r.1, r.2.map Output.unaCuenta)
  | Op.actualizarCuentaTipo num t =>
      let r := actualizar_cuenta_tipo s num t
      (r.1, r.2.map Output.unaCuenta)
  | Op.eliminarCuenta num =>
      let r := eliminar_cuenta s num
      (r.1, r.2.map (fun _ => Output.vacio))
  | Op.listarTransacciones c d h =>
      (s, Except.ok (Output.listaTx (listar_transacciones s c d h)))
  | Op.obtenerTransaccion i => (s, Except.ok (Output.txOpt (obtener_transaccion s i)))
  | Op.actualizarTransaccion i nota =>
      let r := actualizar_transaccion s i nota
      (r.1, r.2.map Output.unaTx)
  | Op.eliminarTransaccion i =>
      let r := eliminar_transaccion s i
      (r.1, r.2.map (fun _ => Output.vacio))
  | Op.depositar c m now =>
      let r := depositar s c m now
      (r.1, r.2.map Output.unaTx)
  | Op.retirar c m now =>
      let r := retirar s c m now
      (r.1, r.2.map Output.unaTx)
  | Op.transferir o d m now =>
      let r := transferir s o d m now
      (r.1, r.2.map Output.unaTx)

/-- Run a sequence of operations from a store. -/
def runOps (ops : List Op) (s : Store) : Store :=
  ops.foldl (fun st op => (run op st).1) s

/-- The ids of the transactions an operation records on a given store (only
the three money-movement operations append to the log). -/
def idsRegistrados (op : Op) (s : Store) : List Nat :=
  match op with
  | Op.depositar c m now =>
      match (depositar s c m now).2 with
      | Except.ok tx => [tx.id]
      | Except.error _ => []
  | Op.retirar c m now =>
      match (retirar s c m now).2 with
      | Except.ok tx => [tx.id]
      | Except.error _ => []
  | Op.transferir o d m now =>
      match (transferir s o d m now).2 with
      | Except.ok tx => [tx.id]
      | Except.error _ => []
  | _ => []

/-- The ids assigned to newly recorded transactions along a run, in order. -/
def trazaIds (ops : List Op) (s : Store) : List Nat :=
  match ops with
  | [] => []
  | op :: rest => idsRegistrados op s ++ trazaIds rest (run op s).1

/-- Client ids are pairwise distinct (the id-keyed dict has unique keys). -/
def ClientesIdsUnicos (s : Store) : Prop :=
  s.clientes.Pairwise (fun a b => a.id ≠ b.id)

/-- No two clients hold the same email. -/
def EmailsUnicos (s : Store) : Prop :=
  s.clientes.Pairwise (fun a b => a.email ≠ b.email)

/-- Every account's cliente_id references a client present in the store. -/
def CuentasRefOk (s : Store) : Prop :=
  ∀ cta ∈ s.cuentas, ∃ c ∈ s.clientes, c.id = cta.cliente_id

/-- The store invariant maintained by every operation. -/
def InvStore (s : Store) : Prop :=
  ClientesIdsUnicos s ∧ EmailsUnicos s ∧ CuentasRefOk s

theorem le_foldl_max (l : List Nat) (a : Nat) : a ≤ l.foldl Nat.max a := by
  induction l generalizing a with
  | nil => simp
  | cons b t ih => exact le_trans (Nat.le_max_left a b) (ih (Nat.max a b))

theorem mem_le_foldl_max (l : List Nat) (a : Nat) : ∀ x ∈ l, x ≤ l.foldl Nat.max a := by
  induction l generalizing a with
  | nil => simp
  | cons b t ih =>
      intro x hx
      rcases List.mem_cons.mp hx with rfl | hx
      · exact le_trans (Nat.le_max_right a x) (le_foldl_max t _)
      · exact ih _ x hx

theorem mem_le_maxClienteId (cs : List Cliente) : ∀ c ∈ cs, c.id ≤ maxClienteId cs :=
  fun c hc => mem_le_foldl_max _ 0 c.id (List.mem_map_of_mem Cliente.id hc)

theorem setClienteDict_append (cs : List Cliente) (c : Cliente)
    (h : ∀ x ∈ cs, x.id ≠ c.id) : setClienteDict cs c = cs ++ [c] := by
  have hb : cs.any (fun x => x.id == c.id) = false := by
    rw [List.any_eq_false]
    intro x hx
    simpa using h x hx
  simp [setClienteDict, hb]

/-- C1: `crear_cliente` fails with DuplicateEmail, adding nothing, when an
existing client already holds the email; otherwise it appends a new client
whose id is one more than the maximum existing id, or 1 when there are no
clients. -/
theorem crear_cliente_correcto (s : Store) (nombre email : String) :
    ((∃ c ∈ s.clientes, c.email = email) →
      crear_cliente s nombre email = (s, Except.error Err.duplicateEmail)) ∧
    ((∀ c ∈ s.clientes, c.email ≠ email) →
      crear_cliente s nombre email =
        ({ s with clientes := s.clientes ++
            [⟨if s.clientes.isEmpty then 1 else maxClienteId s.clientes + 1,
              nombre, email⟩] },
         Except.ok
           ⟨if s.clientes.isEmpty then 1 else maxClienteId s.clientes + 1,
            nombre, email⟩)) := by
  constructor
  · rintro ⟨c, hc, he⟩
    have hb : (s.clientes.any fun c => c.email == email) = true :=
      List.any_eq_true.mpr ⟨c, hc, by simpa using he⟩
    simp [crear_cliente, hb]
  · intro h
    have hb : (s.clientes.any fun c => c.email == email) = false := by
      rw [List.any_eq_false]
      intro x hx
      simpa using h x hx
    have hfresh : ∀ x ∈ s.clientes,
        x.id ≠ (if s.clientes.isEmpty then 1 else maxClienteId s.clientes + 1) := by
      intro x hx
      have hne : ¬ (s.clientes.isEmpty = true) := by
        simp only [List.isEmpty_iff]
        exact List.ne_nil_of_mem hx
      rw [if_neg hne]
      have := mem_le_maxClienteId s.clientes x hx
      omega
    simp only [crear_cliente, hb, Bool.false_eq_true, if_false]
    rw [setClienteDict_append s.clientes _ hfresh]

/-- Witness for C1 on a concrete store: a second client with the email of an
existing one is refused. -/
theorem crear_cliente_correcto_witness :
    crear_cliente ⟨[⟨1, "Ana", "ana@x.com"⟩], [], [], 0, 0⟩ "Bob" "ana@x.com"
      = (⟨[⟨1, "Ana", "ana@x.com"⟩], [], [], 0, 0⟩, Except.error Err.duplicateEmail) :=
  (crear_cliente_correcto ⟨[⟨1, "Ana", "ana@x.com"⟩], [], [], 0, 0⟩ "Bob" "ana@x.com").1
    ⟨⟨1, "Ana", "ana@x.com"⟩, List.mem_singleton.mpr rfl, rfl⟩


theorem except_map_error {α β : Type} (r : Except Err α) (f : α → β) (er : Err)
    (h : r.map f = Except.error er) : r = Except.error er := by
  cases r with
  | ok a => simp [Except.map] at h
  | error e => simp [Except.map] at h; rw [h]

theorem crear_cliente_frame (s : Store) (n e : String) :
    (crear_cliente s n e).1 = s ∨ ∃ v, (crear_cliente s n e).2 = Except.ok v := by
  unfold crear_cliente
  split
  · left; rfl
  · right; exact ⟨_, rfl⟩

theorem actualizar_cliente_frame (s : Store) (i : Nat) (n e : String) :
    (actualizar_cliente s i n e).1 = s ∨ ∃ v, (actualizar_cliente s i n e).2 = Except.ok v := by
  unfold actualizar_cliente
  split
  · split
    · left; rfl
    · right; exact ⟨_, rfl⟩
  · left; rfl

theorem eliminar_cliente_frame (s : Store) (i : Nat) :
    (eliminar_cliente s i).1 = s ∨ ∃ v, (eliminar_cliente s i).2 = Except.ok v := by
  unfold eliminar_cliente
  split
  · split
    · left; rfl
    · right; exact ⟨_, rfl⟩
  · left; rfl

theorem crear_cuenta_frame (s : Store) (i : Nat) (t : TipoCuenta) :
    (crear_cuenta s i t).1 = s ∨ ∃ v, (crear_cuenta s i t).2 = Except.ok v := by
  unfold crear_cuenta
  split
  · right; exact ⟨_, rfl⟩
  · left; rfl

theorem actualizar_cuenta_tipo_frame (s : Store) (num : String) (t : TipoCuenta) :
    (actualizar_cuenta_tipo s num t).1 = s ∨
      ∃ v, (actualizar_cuenta_tipo s num t).2 = Except.ok v := by
  unfold actualizar_cuenta_tipo
  split
  · left; rfl
  · right; exact ⟨_, rfl⟩

theorem eliminar_cuenta_frame (s : Store) (num : String) :
    (eliminar_cuenta s num).1 = s ∨ ∃ v, (eliminar_cuenta s num).2 = Except.ok v := by
  unfold eliminar_cuenta
  split
  · left; rfl
  · split
    · left; rfl
    · right; exact ⟨_, rfl⟩

theorem actualizar_transaccion_frame (s : Store) (i : Nat) (nota : String) :
    (actualizar_transaccion s i nota).1 = s ∨
      ∃ v, (actualizar_transaccion s i nota).2 = Except.ok v := by
  unfold actualizar_transaccion
  split
  · left; rfl
  · right; exact ⟨_, rfl⟩

theorem eliminar_transaccion_frame (s : Store) (i : Nat) :
    (eliminar_transaccion s i).1 = s ∨ ∃ v, (eliminar_transaccion s i).2 = Except.ok v := by
  unfold eliminar_transaccion
  split
  · left; rfl
  · right; exact ⟨_, rfl⟩

theorem depositar_frame (s : Store) (c : String) (m : ℚ) (now : Nat) :
    (depositar s c m now).1 = s ∨ ∃ v, (depositar s c m now).2 = Except.ok v := by
  unfold depositar
  split
  · left; rfl
  · right; exact ⟨_, rfl⟩

theorem retirar_frame (s : Store) (c : String) (m : ℚ) (now : Nat) :
    (retirar s c m now).1 = s ∨ ∃ v, (retirar s c m now).2 = Except.ok v := by
  unfold retirar
  split
  · left; rfl
  · split
    · left; rfl
    · right; exact ⟨_, rfl⟩

theorem transferir_frame (s : Store) (o d : String) (m : ℚ) (now : Nat) :
    (transferir s o d m now).1 = s ∨ ∃ v, (transferir s o d m now).2 = Except.ok v := by
  unfold transferir
  split
  · split
    · left; rfl
    · split
      · left; rfl
      · right; exact ⟨_, rfl⟩
  · left; rfl

/-- C8: any operation of the core that fails leaves the whole store — all
three collections and both counters — exactly as it was before the call. -/
theorem run_falla_sin_mutar (op : Op) (s : Store) (er : Err)
    (h : (run op s).2 = Except.error er) : (run op s).1 = s := by
  cases op with
  | listarClientes => rfl
  | obtenerCliente i => rfl
  | crearCliente n e =>
      rcases crear_cliente_frame s n e with h1 | ⟨v, h2⟩
      · exact h1
      · have := except_map_error _ Output.unCliente er h
        rw [h2] at this; exact absurd this (by simp)
  | actualizarCliente i n e =>
      rcases actualizar_cliente_frame s i n e with h1 | ⟨v, h2⟩
      · exact h1
      · have := except_map_error _ Output.unCliente er h
        rw [h2] at this; exact absurd this (by simp)
  | eliminarCliente i =>
      rcases eliminar_cliente_frame s i with h1 | ⟨v, h2⟩
      · exact h1
      · have := except_map_error _ (fun _ => Output.vacio) er h
        rw [h2] at this; exact absurd this (by simp)
  | listarCuentas i t => rfl
  | obtenerCuenta num => rfl
  | crearCuenta i t =>
      rcases crear_cuenta_frame s i t with h1 | ⟨v, h2⟩
      · exact h1
      · have := except_map_error _ Output.unaCuenta er h
        rw [h2] at this; exact absurd this (by simp)
  | actualizarCuentaTipo num t =>
      rcases actualizar_cuenta_tipo_frame s num t with h1 | ⟨v, h2⟩
      · exact h1
      · have := except_map_error _ Output.unaCuenta er h
        rw [h2] at this; exact absurd this (by simp)
  | eliminarCuenta num =>
      rcases eliminar_cuenta_frame s num with h1 | ⟨v, h2⟩
      · exact h1
      · have := except_map_error _ (fun _ => Output.vacio) er h
        rw [h2] at this; exact absurd this (by simp)
  | listarTransacciones c d hdate => rfl
  | obtenerTransaccion i => rfl
  | actualizarTransaccion i nota =>
      rcases actualizar_transaccion_frame s i nota with h1 | ⟨v, h2⟩
      · exact h1
      · have := except_map_error _ Output.unaTx er h
        rw [h2] at this; exact absurd this (by simp)
  | eliminarTransaccion i =>
      rcases eliminar_transaccion_frame s i with h1 | ⟨v, h2⟩
      · exact h1
      · have := except_map_error _ (fun _ => Output.vacio) er h
        rw [h2] at this; exact absurd this (by simp)
  | depositar c m now =>
      rcases depositar_frame s c m now with h1 | ⟨v, h2⟩
      · exact h1
      · have := except_map_error _ Output.unaTx er h
        rw [h2] at this; exact absurd this (by simp)
  | retirar c m now =>
      rcases retirar_frame s c m now with h1 | ⟨v, h2⟩
      · exact h1
      · have := except_map_error _ Output.unaTx er h
        rw [h2] at this; exact absurd this (by simp)
  | transferir o d m now =>
      rcases transferir_frame s o d m now with h1 | ⟨v, h2⟩
      · exact h1
      · have := except_map_error _ Output.unaTx er h
        rw [h2] at this; exact absurd this (by simp)

/-- Witness for C8: deleting a client from the empty store fails and the store
is exactly the initial one afterwards. -/
theorem run_falla_sin_mutar_witness : (run (Op.eliminarCliente 1) S0).1 = S0 :=
  run_falla_sin_mutar (Op.eliminarCliente 1) S0 Err.notFound rfl

theorem crear_cliente_seq_tx (s : Store) (n e : String) :
    (crear_cliente s n e).1.seq_tx = s.seq_tx := by
  unfold crear_cliente; split <;> rfl

theorem actualizar_cliente_seq_tx (s : Store) (i : Nat) (n e : String) :
    (actualizar_cliente s i n e).1.seq_tx = s.seq_tx := by
  unfold actualizar_cliente
  split
  · split <;> rfl
  · rfl

theorem eliminar_cliente_seq_tx (s : Store) (i : Nat) :
    (eliminar_cliente s i).1.seq_tx = s.seq_tx := by
  unfold eliminar_cliente
  split
  · split <;> rfl
  · rfl

theorem crear_cuenta_seq_tx (s : Store) (i : Nat) (t : TipoCuenta) :
    (crear_cuenta s i t).1.seq_tx = s.seq_tx := by
  unfold crear_cuenta; split <;> rfl

theorem actualizar_cuenta_tipo_seq_tx (s : Store) (num : String) (t : TipoCuenta) :
    (actualizar_cuenta_tipo s num t).1.seq_tx = s.seq_tx := by
  unfold actualizar_cuenta_tipo; split <;> rfl

theorem eliminar_cuenta_seq_tx (s : Store) (num : String) :
    (eliminar_cuenta s num).1.seq_tx = s.seq_tx := by
  unfold eliminar_cuenta
  split
  · rfl
  · split <;> rfl

theorem actualizar_transaccion_seq_tx (s : Store) (i : Nat) (nota : String) :
    (actualizar_transaccion s i nota).1.seq_tx = s.seq_tx := by
  unfold actualizar_transaccion; split <;> rfl

theorem eliminar_transaccion_seq_tx (s : Store) (i : Nat) :
    (eliminar_transaccion s i).1.seq_tx = s.seq_tx := by
  unfold eliminar_transaccion; split <;> rfl

theorem idsRegistrados_spec (op : Op) (s : Store) :
    (idsRegistrados op s = [] ∧ (run op s).1.seq_tx = s.seq_tx) ∨
    (idsRegistrados op s = [s.seq_tx + 1] ∧ (run op s).1.seq_tx = s.seq_tx + 1) := by
  cases op with
  | listarClientes => exact Or.inl ⟨rfl, rfl⟩
  | obtenerCliente i => exact Or.inl ⟨rfl, rfl⟩
  | crearCliente n e => exact Or.inl ⟨rfl, crear_cliente_seq_tx s n e⟩
  | actualizarCliente i n e => exact Or.inl ⟨rfl, actualizar_cliente_seq_tx s i n e⟩
  | eliminarCliente i => exact Or.inl ⟨rfl, eliminar_cliente_seq_tx s i⟩
  | listarCuentas i t => exact Or.inl ⟨rfl, rfl⟩
  | obtenerCuenta num => exact Or.inl ⟨rfl, rfl⟩
  | crearCuenta i t => exact Or.inl ⟨rfl, crear_cuenta_seq_tx s i t⟩
  | actualizarCuentaTipo num t => exact Or.inl ⟨rfl, actualizar_cuenta_tipo_seq_tx s num t⟩
  | eliminarCuenta num => exact Or.inl ⟨rfl, eliminar_cuenta_seq_tx s num⟩
  | listarTransacciones c d hdate => exact Or.inl ⟨rfl, rfl⟩
  | obtenerTransaccion i => exact Or.inl ⟨rfl, rfl⟩
  | actualizarTransaccion i nota => exact Or.inl ⟨rfl, actualizar_transaccion_seq_tx s i nota⟩
  | eliminarTransaccion i => exact Or.inl ⟨rfl, eliminar_transaccion_seq_tx s i⟩
  | depositar c m now =>
      rcases hf : s.cuentas.find? (fun x => x.numero == c) with _ | cta
      · exact Or.inl ⟨by simp [idsRegistrados, depositar, hf],
          by simp [run, depositar, hf]⟩
      · exact Or.inr ⟨by simp [idsRegistrados, depositar, hf, registrar_tx],
          by simp [run, depositar, hf, registrar_tx]⟩
  | retirar c m now =>
      rcases hf : s.cuentas.find? (fun x => x.numero == c) with _ | cta
      · exact Or.inl ⟨by simp [idsRegistrados, retirar, hf],
          by simp [run, retirar, hf]⟩
      · by_cases hm : m > cta.saldo
        · exact Or.inl ⟨by simp [idsRegistrados, retirar, hf, hm],
            by simp [run, retirar, hf, hm]⟩
        · exact Or.inr ⟨by simp [idsRegistrados, retirar, hf, hm, registrar_tx],
            by simp [run, retirar, hf, hm, registrar_tx]⟩
  | transferir o d m now =>
      rcases hfo : s.cuentas.find? (fun x => x.numero == o) with _ | co
      · exact Or.inl ⟨by simp [idsRegistrados, transferir, hfo],
          by simp [run, transferir, hfo]⟩
      · rcases hfd : s.cuentas.find? (fun x => x.numero == d) with _ | cd
        · exact Or.inl ⟨by simp [idsRegistrados, transferir, hfo, hfd],
            by simp [run, transferir, hfo, hfd]⟩
        · cases heq : o == d with
          | true =>
              exact Or.inl ⟨by simp [idsRegistrados, transferir, hfo, hfd, heq],
                by simp [run, transferir, hfo, hfd, heq]⟩
          | false =>
              by_cases hm : m > co.saldo
              · exact Or.inl ⟨by simp [idsRegistrados, transferir, hfo, hfd, heq, hm],
                  by simp [run, transferir, hfo, hfd, heq, hm]⟩
              · exact Or.inr
                  ⟨by simp [idsRegistrados, transferir, hfo, hfd, heq, hm, registrar_tx],
                   by simp [run, transferir, hfo, hfd, heq, hm, registrar_tx]⟩

theorem trazaIds_lb (ops : List Op) (s : Store) :
    ∀ i ∈ trazaIds ops s, s.seq_tx < i := by
  induction ops generalizing s with
  | nil => simp [trazaIds]
  | cons op rest ih =>
      intro i hi
      rw [trazaIds, List.mem_append] at hi
      rcases idsRegistrados_spec op s with ⟨h1, h2⟩ | ⟨h1, h2⟩
      · rcases hi with hi | hi
        · rw [h1] at hi; simp at hi
        · have := ih (run op s).1 i hi
          omega
      · rcases hi with hi | hi
        · rw [h1] at hi
          simp at hi
          omega
        · have := ih (run op s).1 i hi
          omega

theorem trazaIds_pairwise (ops : List Op) (s : Store) :
    List.Pairwise (· < ·) (trazaIds ops s) := by
  induction ops generalizing s with
  | nil => simp [trazaIds]
  | cons op rest ih =>
      rw [trazaIds]
      rcases idsRegistrados_spec op s with ⟨h1, h2⟩ | ⟨h1, h2⟩
      · rw [h1]
        simpa using ih (run op s).1
      · rw [h1]
        rw [List.singleton_append, List.pairwise_cons]
        refine ⟨fun b hb => ?_, ih (run op s).1⟩
        have := trazaIds_lb rest (run op s).1 b hb
        omega

/-- C9: along any run from the initial store, the ids assigned to newly
recorded transactions are strictly increasing — each new transaction's id is
strictly greater than every id assigned earlier, and no id is ever assigned
twice, deletions included (deleting a transaction does not touch the
counter). -/
theorem traza_tx_ids_estrictamente_crecientes (ops : List Op) :
    List.Pairwise (· < ·) (trazaIds ops S0) :=
  trazaIds_pairwise ops S0

theorem mem_setCuentaDict {cs : List Cuenta} {c x : Cuenta}
    (h : x ∈ setCuentaDict cs c) : x ∈ cs ∨ x = c := by
  unfold setCuentaDict at h
  split at h
  · rcases List.mem_map.mp h with ⟨y, hy, hyx⟩
    by_cases hb : (y.numero == c.numero) = true
    · rw [if_pos hb] at hyx
      right; exact hyx.symm
    · rw [if_neg hb] at hyx
      left; rw [← hyx]; exact hy
  · rcases List.mem_append.mp h with h1 | h1
    · left; exact h1
    · right; simpa using h1

theorem setClienteDict_replace (cs : List Cliente) (c : Cliente)
    (h : cs.any (fun x => x.id == c.id) = true) :
    setClienteDict cs c = cs.map (fun x => if x.id == c.id then c else x) := by
  simp [setClienteDict, h]

theorem inv_S0 : InvStore S0 :=
  ⟨List.Pairwise.nil, List.Pairwise.nil, fun cta h => absurd h (List.not_mem_nil cta)⟩

theorem inv_crear_cliente (s : Store) (n e : String) (h : InvStore s) :
    InvStore (crear_cliente s n e).1 := by
  obtain ⟨hids, hem, href⟩ := h
  unfold crear_cliente
  split
  · exact ⟨hids, hem, href⟩
  next hb =>
    have hmail : ∀ x ∈ s.clientes, x.email ≠ e := by
      intro x hx hxe
      exact hb (List.any_eq_true.mpr ⟨x, hx, by simpa using hxe⟩)
    have hfresh : ∀ x ∈ s.clientes,
        x.id ≠ (if s.clientes.isEmpty then 1 else maxClienteId s.clientes + 1) := by
      intro x hx
      have hne : ¬ (s.clientes.isEmpty = true) := by
        simp only [List.isEmpty_iff]
        exact List.ne_nil_of_mem hx
      rw [if_neg hne]
      have := mem_le_maxClienteId s.clientes x hx
      omega
    dsimp only
    rw [setClienteDict_append _ _ hfresh]
    refine ⟨?_, ?_, ?_⟩
    · exact List.pairwise_append.mpr ⟨hids, List.pairwise_singleton _ _, by
        intro a ha b hbm
        rw [List.mem_singleton] at hbm
        subst hbm
        exact hfresh a ha⟩
    · exact List.pairwise_append.mpr ⟨hem, List.pairwise_singleton _ _, by
        intro a ha b hbm
        rw [List.mem_singleton] at hbm
        subst hbm
        exact hmail a ha⟩
    · intro cta hcta
      obtain ⟨c, hc, hcid⟩ := href cta hcta
      exact ⟨c, List.mem_append_left _ hc, hcid⟩

theorem inv_actualizar_cliente (s : Store) (i : Nat) (n e : String) (h : InvStore s) :
    InvStore (actualizar_cliente s i n e).1 := by
  obtain ⟨hids, hem, href⟩ := h
  unfold actualizar_cliente
  split
  next hid =>
    split
    · exact ⟨hids, hem, href⟩
    next hdup =>
      have hdup2 : ∀ x ∈ s.clientes, x.email = e → x.id = i := by
        intro x hx hxe
        by_contra hxi
        exact hdup (List.any_eq_true.mpr ⟨x, hx, by simp [hxe, hxi]⟩)
      have fid : ∀ x : Cliente,
          (if x.id == i then (⟨i, n, e⟩ : Cliente) else x).id = x.id := by
        intro x
        split
        next hx => exact (by simpa using hx : x.id = i).symm
        next => rfl
      dsimp only
      rw [setClienteDict_replace s.clientes ⟨i, n, e⟩ hid]
      refine ⟨?_, ?_, ?_⟩
      · exact List.pairwise_map.mpr (hids.imp (fun {a b} hab => by
          dsimp only
          rw [fid, fid]
          exact hab))
      · refine List.pairwise_map.mpr (List.Pairwise.imp_of_mem ?_ (hids.and hem))
        intro a b ha hb hab
        dsimp only
        by_cases hA : (a.id == i) = true
        · by_cases hB : (b.id == i) = true
          · exact absurd (by
              have h1 : a.id = i := by simpa using hA
              have h2 : b.id = i := by simpa using hB
              rw [h1, h2]) hab.1
          · rw [if_pos hA, if_neg hB]
            intro hcontra
            exact hB (by simpa using hdup2 b hb hcontra.symm)
        · by_cases hB : (b.id == i) = true
          · rw [if_neg hA, if_pos hB]
            intro hcontra
            exact hA (by simpa using hdup2 a ha hcontra)
          · rw [if_neg hA, if_neg hB]
            exact hab.2
      · intro cta hcta
        obtain ⟨c, hc, hcid⟩ := href cta hcta
        refine ⟨if c.id == i then (⟨i, n, e⟩ : Cliente) else c,
          List.mem_map_of_mem _ hc, ?_⟩
        rw [fid]
        exact hcid
  next => exact ⟨hids, hem, href⟩

theorem inv_eliminar_cliente (s : Store) (i : Nat) (h : InvStore s) :
    InvStore (eliminar_cliente s i).1 := by
  obtain ⟨hids, hem, href⟩ := h
  unfold eliminar_cliente
  split
  next hid =>
    split
    · exact ⟨hids, hem, href⟩
    next hcta =>
      refine ⟨hids.filter _, hem.filter _, ?_⟩
      intro cta hctam
      obtain ⟨c, hc, hcid⟩ := href cta hctam
      have hne : cta.cliente_id ≠ i := by
        intro hcontra
        exact hcta (List.any_eq_true.mpr ⟨cta, hctam, by simpa using hcontra⟩)
      refine ⟨c, List.mem_filter.mpr ⟨hc, ?_⟩, hcid⟩
      simpa [bne_iff_ne, hcid] using hne
  next => exact ⟨hids, hem, href⟩

theorem inv_crear_cuenta (s : Store) (i : Nat) (t : TipoCuenta) (h : InvStore s) :
    InvStore (crear_cuenta s i t).1 := by
  obtain ⟨hids, hem, href⟩ := h
  unfold crear_cuenta
  split
  next hid =>
    dsimp only
    refine ⟨hids, hem, ?_⟩
    intro cta hcta
    rcases mem_setCuentaDict hcta with hm | rfl
    · exact href cta hm
    · obtain ⟨c, hc, hcid⟩ := List.any_eq_true.mp hid
      exact ⟨c, hc, by simpa using hcid⟩
  next => exact ⟨hids, hem, href⟩

theorem inv_actualizar_cuenta_tipo (s : Store) (num : String) (t : TipoCuenta)
    (h : InvStore s) : InvStore (actualizar_cuenta_tipo s num t).1 := by
  obtain ⟨hids, hem, href⟩ := h
  unfold actualizar_cuenta_tipo
  split
  · exact ⟨hids, hem, href⟩
  next cta hfind =>
    dsimp only
    refine ⟨hids, hem, ?_⟩
    intro x hx
    rcases mem_setCuentaDict hx with hm | rfl
    · exact href x hm
    · exact href cta (List.mem_of_find?_eq_some hfind)

theorem inv_eliminar_cuenta (s : Store) (num : String) (h : InvStore s) :
    InvStore (eliminar_cuenta s num).1 := by
  obtain ⟨hids, hem, href⟩ := h
  unfold eliminar_cuenta
  split
  · exact ⟨hids, hem, href⟩
  next cta hfind =>
    split
    · exact ⟨hids, hem, href⟩
    · refine ⟨hids, hem, ?_⟩
      intro x hx
      exact href x (List.mem_of_mem_filter hx)

theorem inv_depositar (s : Store) (c : String) (m : ℚ) (now : Nat) (h : InvStore s) :
    InvStore (depositar s c m now).1 := by
  obtain ⟨hids, hem, href⟩ := h
  unfold depositar
  split
  · exact ⟨hids, hem, href⟩
  next cta hfind =>
    dsimp only [registrar_tx]
    refine ⟨hids, hem, ?_⟩
    intro x hx
    rcases mem_setCuentaDict hx with hm | rfl
    · exact href x hm
    · exact href cta (List.mem_of_find?_eq_some hfind)

theorem inv_retirar (s : Store) (c : String) (m : ℚ) (now : Nat) (h : InvStore s) :
    InvStore (retirar s c m now).1 := by
  obtain ⟨hids, hem, href⟩ := h
  unfold retirar
  split
  · exact ⟨hids, hem, href⟩
  next cta hfind =>
    split
    · exact ⟨hids, hem, href⟩
    · dsimp only [registrar_tx]
      refine ⟨hids, hem, ?_⟩
      intro x hx
      rcases mem_setCuentaDict hx with hm | rfl
      · exact href x hm
      · exact href cta (List.mem_of_find?_eq_some hfind)

theorem inv_transferir (s : Store) (o d : String) (m : ℚ) (now : Nat) (h : InvStore s) :
    InvStore (transferir s o d m now).1 := by
  obtain ⟨hids, hem, href⟩ := h
  unfold transferir
  split
  next co cd hfo hfd =>
    split
    · exact ⟨hids, hem, href⟩
    · split
      · exact ⟨hids, hem, href⟩
      · dsimp only [registrar_tx]
        refine ⟨hids, hem, ?_⟩
        intro x hx
        rcases mem_setCuentaDict hx with hm | rfl
        · rcases mem_setCuentaDict hm with hm2 | rfl
          · exact href x hm2
          · exact href co (List.mem_of_find?_eq_some hfo)
        · exact href cd (List.mem_of_find?_eq_some hfd)
  next => exact ⟨hids, hem, href⟩

theorem inv_actualizar_transaccion (s : Store) (i : Nat) (nota : String)
    (h : InvStore s) : InvStore (actualizar_transaccion s i nota).1 := by
  obtain ⟨hids, hem, href⟩ := h
  unfold actualizar_transaccion
  split
  · exact ⟨hids, hem, href⟩
  · exact ⟨hids, hem, href⟩

theorem inv_eliminar_transaccion (s : Store) (i : Nat) (h : InvStore s) :
    InvStore (eliminar_transaccion s i).1 := by
  obtain ⟨hids, hem, href⟩ := h
  unfold eliminar_transaccion
  split
  · exact ⟨hids, hem, href⟩
  · exact ⟨hids, hem, href⟩

theorem inv_run (op : Op) (s : Store) (h : InvStore s) : InvStore (run op s).1 := by
  cases op with
  | listarClientes => exact h
  | obtenerCliente i => exact h
  | crearCliente n e => exact inv_crear_cliente s n e h
  | actualizarCliente i n e => exact inv_actualizar_cliente s i n e h
  | eliminarCliente i => exact inv_eliminar_cliente s i h
  | listarCuentas i t => exact h
  | obtenerCuenta num => exact h
  | crearCuenta i t => exact inv_crear_cuenta s i t h
  | actualizarCuentaTipo num t => exact inv_actualizar_cuenta_tipo s num t h
  | eliminarCuenta num => exact inv_eliminar_cuenta s num h
  | listarTransacciones c d hdate => exact h
  | obtenerTransaccion i => exact h
  | actualizarTransaccion i nota => exact inv_actualizar_transaccion s i nota h
  | eliminarTransaccion i => exact inv_eliminar_transaccion s i h
  | depositar c m now => exact inv_depositar s c m now h
  | retirar c m now => exact inv_retirar s c m now h
  | transferir o d m now => exact inv_transferir s o d m now h

theorem inv_runOps (ops : List Op) (s : Store) (h : InvStore s) :
    InvStore (runOps ops s) := by
  induction ops generalizing s with
  | nil => exact h
  | cons op rest ih => exact ih (run op s).1 (inv_run op s h)

/-- C4: after any sequence of operations from the initial store, no two
clients hold equal emails (creation and update both refuse an email already
held by a different client). -/
theorem emails_siempre_unicos (ops : List Op) :
    EmailsUnicos (runOps ops S0) :=
  (inv_runOps ops S0 inv_S0).2.1

/-- C5: after any sequence of operations from the initial store, every
account's cliente_id references a client present in the store (creation is
refused for an absent client; deleting a client that owns accounts is
refused, with no cascade). -/
theorem cuentas_referencian_clientes (ops : List Op) :
    ∀ cta ∈ (runOps ops S0).cuentas,
      ∃ c ∈ (runOps ops S0).clientes, c.id = cta.cliente_id :=
  (inv_runOps ops S0 inv_S0).2.2

/-- Witness for C5: after creating client 1 and an account for it, the stored
account's cliente_id is backed by a stored client. -/
theorem cuentas_referencian_clientes_witness :
    ∃ c ∈ (runOps [Op.crearCliente "Ana" "ana@x.com",
        Op.crearCuenta 1 TipoCuenta.AHORROS] S0).clientes,
      c.id = (⟨"ACC" ++ fmt04 1, 1, TipoCuenta.AHORROS, 0⟩ : Cuenta).cliente_id :=
  cuentas_referencian_clientes
    [Op.crearCliente "Ana" "ana@x.com", Op.crearCuenta 1 TipoCuenta.AHORROS]
    ⟨"ACC" ++ fmt04 1, 1, TipoCuenta.AHORROS, 0⟩ (by decide)

/-- C2: for strictly positive amounts, `retirar` fails with AccountNotFound on
an absent account; fails with InsufficientFunds when the amount exceeds the
balance, leaving the account's balance (and the whole store) unchanged; and
otherwise decreases the balance by the amount and appends exactly one RETIRO
transaction whose source is the account and whose destination is null. -/
theorem retirar_correcto (s : Store) (cuenta : String) (monto : ℚ) (now : Nat)
    (hpos : 0 < monto) :
    (obtener_cuenta s cuenta = none →
      retirar s cuenta monto now = (s, Except.error Err.accountNotFound)) ∧
    (∀ cta, obtener_cuenta s cuenta = some cta → cta.saldo < monto →
      retirar s cuenta monto now = (s, Except.error Err.insufficientFunds) ∧
      obtener_cuenta (retirar s cuenta monto now).1 cuenta = some cta) ∧
    (∀ cta, obtener_cuenta s cuenta = some cta → monto ≤ cta.saldo →
      retirar s cuenta monto now =
        ({ s with
            cuentas := setCuentaDict s.cuentas { cta with saldo := cta.saldo - monto },
            transacciones := s.transacciones ++
              [⟨s.seq_tx + 1, TransaccionTipo.RETIRO, some cuenta, none, monto, now, none⟩],
            seq_tx := s.seq_tx + 1 },
         Except.ok
           ⟨s.seq_tx + 1, TransaccionTipo.RETIRO, some cuenta, none, monto, now, none⟩)) := by
  refine ⟨?_, ?_, ?_⟩
  · intro h
    unfold obtener_cuenta at h
    simp [retirar, h]
  · intro cta hf hlt
    unfold obtener_cuenta at hf
    have hel : retirar s cuenta monto now = (s, Except.error Err.insufficientFunds) := by
      simp [retirar, hf, hlt]
    refine ⟨hel, ?_⟩
    rw [hel]
    exact hf
  · intro cta hf hle
    unfold obtener_cuenta at hf
    have hnlt : ¬ (monto > cta.saldo) := not_lt.mpr hle
    simp [retirar, hf, hnlt, registrar_tx]

/-- Witness for C2 on a concrete store: withdrawing 150 from a balance of 100
fails with InsufficientFunds and the balance is unchanged. -/
theorem retirar_correcto_witness :
    retirar ⟨[⟨1, "Ana", "ana@x.com"⟩], [⟨"ACC0001", 1, TipoCuenta.AHORROS, 100⟩],
        [], 0, 1⟩ "ACC0001" 150 7 =
      (⟨[⟨1, "Ana", "ana@x.com"⟩], [⟨"ACC0001", 1, TipoCuenta.AHORROS, 100⟩],
        [], 0, 1⟩, Except.error Err.insufficientFunds) ∧
    obtener_cuenta
      (retirar ⟨[⟨1, "Ana", "ana@x.com"⟩], [⟨"ACC0001", 1, TipoCuenta.AHORROS, 100⟩],
        [], 0, 1⟩ "ACC0001" 150 7).1 "ACC0001" =
      some ⟨"ACC0001", 1, TipoCuenta.AHORROS, 100⟩ :=
  (retirar_correcto ⟨[⟨1, "Ana", "ana@x.com"⟩],
      [⟨"ACC0001", 1, TipoCuenta.AHORROS, 100⟩], [], 0, 1⟩ "ACC0001" 150 7
      (by norm_num)).2.1
    ⟨"ACC0001", 1, TipoCuenta.AHORROS, 100⟩ rfl (by norm_num)

/-- C3: a transfer whose origin and destination are the same existing account
fails with SameAccount, whatever the balance and the (positive) amount, and
leaves the store — in particular every balance — unchanged. -/
theorem transferir_misma_cuenta (s : Store) (a : String) (monto : ℚ) (now : Nat)
    (hpos : 0 < monto) (cta : Cuenta) (h : obtener_cuenta s a = some cta) :
    transferir s a a monto now = (s, Except.error Err.sameAccount) := by
  unfold obtener_cuenta at h
  simp [transferir, h]

/-- Witness for C3: a self-transfer of 10 on an account holding 100 fails with
SameAccount. -/
theorem transferir_misma_cuenta_witness :
    transferir ⟨[⟨1, "Ana", "ana@x.com"⟩], [⟨"ACC0001", 1, TipoCuenta.AHORROS, 100⟩],
        [], 0, 1⟩ "ACC0001" "ACC0001" 10 3 =
      (⟨[⟨1, "Ana", "ana@x.com"⟩], [⟨"ACC0001", 1, TipoCuenta.AHORROS, 100⟩],
        [], 0, 1⟩, Except.error Err.sameAccount) :=
  transferir_misma_cuenta ⟨[⟨1, "Ana", "ana@x.com"⟩],
      [⟨"ACC0001", 1, TipoCuenta.AHORROS, 100⟩], [], 0, 1⟩ "ACC0001" 10 3
    (by norm_num) ⟨"ACC0001", 1, TipoCuenta.AHORROS, 100⟩ rfl

/-- C6: `crear_cuenta` fails with ClientNotFound, leaving the store (hence the
account collection) untouched, when the client is absent; otherwise it stores
a new account with balance exactly 0 whose number is "ACC" followed by the
zero-padded 4-digit form of the bumped global counter; and deleting an
account never changes that counter, so it advances independently of
deletions. -/
theorem crear_cuenta_correcto (s : Store) (cliente_id : Nat) (tipo : TipoCuenta) :
    ((∀ c ∈ s.clientes, c.id ≠ cliente_id) →
      crear_cuenta s cliente_id tipo = (s, Except.error Err.clientNotFound)) ∧
    ((∃ c ∈ s.clientes, c.id = cliente_id) →
      crear_cuenta s cliente_id tipo =
        ({ s with
            cuentas := setCuentaDict s.cuentas
              ⟨"ACC" ++ fmt04 (s.seq_cta + 1), cliente_id, tipo, 0⟩,
            seq_cta := s.seq_cta + 1 },
         Except.ok ⟨"ACC" ++ fmt04 (s.seq_cta + 1), cliente_id, tipo, 0⟩)) ∧
    (∀ numero, (eliminar_cuenta s numero).1.seq_cta = s.seq_cta) := by
  refine ⟨?_, ?_, ?_⟩
  · intro h
    have hb : (s.clientes.any fun c => c.id == cliente_id) = false := by
      rw [List.any_eq_false]
      intro x hx
      simpa using h x hx
    simp [crear_cuenta, hb]
  · rintro ⟨c, hc, hcid⟩
    have hb : (s.clientes.any fun c => c.id == cliente_id) = true :=
      List.any_eq_true.mpr ⟨c, hc, by simpa using hcid⟩
    simp [crear_cuenta, hb]
  · intro numero
    unfold eliminar_cuenta
    split
    · rfl
    · split <;> rfl

/-- Witness for C6: creating an account for existing client 1 on a fresh store
yields number "ACC0001" (counter 1) and balance 0. -/
theorem crear_cuenta_correcto_witness :
    crear_cuenta ⟨[⟨1, "Ana", "ana@x.com"⟩], [], [], 0, 0⟩ 1 TipoCuenta.AHORROS =
      (⟨[⟨1, "Ana", "ana@x.com"⟩],
        setCuentaDict [] ⟨"ACC" ++ fmt04 1, 1, TipoCuenta.AHORROS, 0⟩, [], 0, 1⟩,
       Except.ok ⟨"ACC" ++ fmt04 1, 1, TipoCuenta.AHORROS, 0⟩) :=
  (crear_cuenta_correcto ⟨[⟨1, "Ana", "ana@x.com"⟩], [], [], 0, 0⟩ 1
      TipoCuenta.AHORROS).2.1
    ⟨⟨1, "Ana", "ana@x.com"⟩, List.mem_singleton.mpr rfl, rfl⟩

/-- C7: on an existing account, `eliminar_cuenta` succeeds exactly when the
balance is 0; for any nonzero balance it fails with NonZeroBalance and the
account is still present afterwards. -/
theorem eliminar_cuenta_correcto (s : Store) (numero : String) (cta : Cuenta)
    (h : obtener_cuenta s numero = some cta) :
    ((eliminar_cuenta s numero).2 = Except.ok () ↔ cta.saldo = 0) ∧
    (cta.saldo ≠ 0 →
      eliminar_cuenta s numero = (s, Except.error Err.nonZeroBalance) ∧
      obtener_cuenta (eliminar_cuenta s numero).1 numero = some cta) := by
  unfold obtener_cuenta at h
  by_cases hz : cta.saldo = 0
  · refine ⟨?_, ?_⟩
    · simp [eliminar_cuenta, h, hz]
    · intro hcontra
      exact absurd hz hcontra
  · have hel : eliminar_cuenta s numero = (s, Except.error Err.nonZeroBalance) := by
      simp [eliminar_cuenta, h, hz]
    refine ⟨?_, ?_⟩
    · rw [hel]
      simp [hz]
    · intro _
      refine ⟨hel, ?_⟩
      rw [hel]
      exact h

/-- Witness for C7: deleting an account holding 100 fails with NonZeroBalance
and the account is still there. -/
theorem eliminar_cuenta_correcto_witness :
    eliminar_cuenta ⟨[⟨1, "Ana", "ana@x.com"⟩],
        [⟨"ACC0001", 1, TipoCuenta.AHORROS, 100⟩], [], 0, 1⟩ "ACC0001" =
      (⟨[⟨1, "Ana", "ana@x.com"⟩], [⟨"ACC0001", 1, TipoCuenta.AHORROS, 100⟩],
        [], 0, 1⟩, Except.error Err.nonZeroBalance) ∧
    obtener_cuenta
      (eliminar_cuenta ⟨[⟨1, "Ana", "ana@x.com"⟩],
        [⟨"ACC0001", 1, TipoCuenta.AHORROS, 100⟩], [], 0, 1⟩ "ACC0001").1 "ACC0001" =
      some ⟨"ACC0001", 1, TipoCuenta.AHORROS, 100⟩ :=
  (eliminar_cuenta_correcto ⟨[⟨1, "Ana", "ana@x.com"⟩],
      [⟨"ACC0001", 1, TipoCuenta.AHORROS, 100⟩], [], 0, 1⟩ "ACC0001"
      ⟨"ACC0001", 1, TipoCuenta.AHORROS, 100⟩ rfl).2 (by norm_num)

/-- C10: the query operations — list clients, get client, list accounts with
any filter combination, get account — return the store exactly as it was:
no collection and no counter is mutated. -/
theorem consultas_puras (s : Store) (i : Nat) (num : String) (cid : Option Nat)
    (t : Option TipoCuenta) :
    (run Op.listarClientes s).1 = s ∧
    (run (Op.obtenerCliente i) s).1 = s ∧
    (run (Op.listarCuentas cid t) s).1 = s ∧
    (run (Op.obtenerCuenta num) s).1 = s :=
  ⟨rfl, rfl, rfl, rfl⟩
